/-
Verification of the remote execution subsystem of the Autotest repository
(`server/hosts/ssh_host.py`) against its natural-language specification.

The Python code is shallowly embedded: the result-classification logic of
`SSHHost._run`, the `CmdError` wrapping of `SSHHost.run`, the pattern
classification of `SSHHost.run_grep`, the bootstrap logic of
`SSHHost.setup_ssh`, and the command-line construction of `SSHHost._run`
become pure Lean functions over explicit inputs.  The local process runner
(`utils.run`), shell escaping (`utils.sh_escape`) and the regular-expression
engine (`re.search`) are collaborators outside this file: their outcomes are
passed in as data (`SpawnOutcome`, an abstract escape function, an abstract
search function), except for the two concrete patterns hard-coded in
`_run`, which are embedded as decidable matchers below.
-/
import Mathlib

namespace Autotest

/-- Outcome of a synchronous local command execution, as produced by the
local process runner `utils.run`: exit status (a Python `int`, possibly
negative for signal-terminated processes), captured stdout and captured
stderr.  Embeds the fields of `utils.CmdResult` that `ssh_host.py` reads. -/
structure CmdResult where
  exit_status : Int
  stdout : String
  stderr : String
deriving DecidableEq, Repr

/-- The exceptions `ssh_host.py` raises from `run`, each carrying the
`CmdResult` it was constructed with:
`sshTimeout` embeds `error.AutoservSSHTimeout` (transport timeout),
`sshPermissionDenied` embeds `error.AutoservSshPermissionDeniedError`
(authentication failure), and `runError` embeds `error.AutoservRunError`
(generic remote-execution failure). -/
inductive AutoservError where
  | sshTimeout (msg : String) (result : CmdResult)
  | sshPermissionDenied (msg : String) (result : CmdResult)
  | runError (msg : String) (result : CmdResult)
deriving DecidableEq, Repr

/-- Outcome of the local spawn performed inside `SSHHost._run`:
either `utils.run` returned a `CmdResult`, or it raised `error.CmdError`
(which, per the comment in `SSHHost.run`, happens only on a local
wall-clock timeout of the spawned command) carrying a message and the
partial result (`cmderr.args[0]`, `cmderr.args[1]`). -/
inductive SpawnOutcome where
  | completed (result : CmdResult)
  | cmdError (msg : String) (result : CmdResult)
deriving DecidableEq, Repr

/-- `hasSub pat s` decides whether the character list `pat` occurs as a
contiguous sublist of `s`.  Embeds the Python `in` substring test and
`re.search` restricted to patterns with no metacharacters. -/
def hasSub (pat : List Char) : List Char → Bool
  | [] => pat.isEmpty
  | c :: rest => pat.isPrefixOf (c :: rest) || hasSub pat rest

/-- Literal prefix of the connection-timed-out pattern in `SSHHost._run`. -/
def sshTimeoutPre : List Char := "ssh: connect to host ".data

/-- Literal separator of the connection-timed-out pattern. -/
def sshTimeoutSep : List Char := " port ".data

/-- Literal suffix of the connection-timed-out pattern (ends in a carriage
return). -/
def sshTimeoutSuf : List Char := ": Connection timed out\r".data

/-- Embeds `re.search(r'^ssh: connect to host .* port .*: Connection timed
out\r$', stderr)` from `SSHHost._run` with Python default flags: `^`
matches only at the start of the string, `$` matches at the end of the
string or just before a final newline, and `.` matches any character
except a newline.  Hence a match exists iff, after removing one optional
trailing newline, the whole string is newline-free, starts with the
literal prefix, ends with the literal suffix, and carries the literal
`" port "` separator strictly between them. -/
def connTimedOutMatch (stderr : String) : Bool :=
  let s := stderr.data
  let t := if s.getLast? = some '\n' then s.dropLast else s
  t.all (fun c => c != '\n') &&
  sshTimeoutPre.isPrefixOf t &&
  sshTimeoutSuf.isSuffixOf t &&
  decide (sshTimeoutPre.length + sshTimeoutSuf.length ≤ t.length) &&
  hasSub sshTimeoutSep
    ((t.drop sshTimeoutPre.length).take
      (t.length - sshTimeoutPre.length - sshTimeoutSuf.length))

/-- Embeds `"Permission denied." in result.stderr` from `SSHHost._run`. -/
def permissionDeniedIn (stderr : String) : Bool :=
  hasSub "Permission denied.".data stderr.data

namespace SSHHost

/-- The result-classification tail of `SSHHost._run` (after `utils.run`
returned `result`): on exit status 255, first the connection-timed-out
pattern raises `AutoservSSHTimeout`, then the permission-denied marker
raises `AutoservSshPermissionDeniedError`; afterwards a positive exit
status raises `AutoservRunError` unless `ignore_status` is set; otherwise
the result is returned. -/
def runCheck (ignore_status : Bool) (result : CmdResult) :
    Except AutoservError CmdResult :=
  if result.exit_status = 255 && connTimedOutMatch result.stderr then
    .error (.sshTimeout "ssh timed out" result)
  else if result.exit_status = 255 && permissionDeniedIn result.stderr then
    .error (.sshPermissionDenied "ssh permission denied" result)
  else if !ignore_status && decide (0 < result.exit_status) then
    .error (.runError "command execution error" result)
  else
    .ok result

/-- `SSHHost.run`, as a function of the spawn outcome: on a completed
spawn it applies the classification of `_run`; on a `CmdError` (local
command timeout) it re-raises the message and partial result as an
`AutoservRunError`, exactly as the `except error.CmdError` clause does. -/
def run (ignore_status : Bool) (outcome : SpawnOutcome) :
    Except AutoservError CmdResult :=
  match outcome with
  | .completed result => runCheck ignore_status result
  | .cmdError msg result => .error (.runError msg result)

/-- The Python truthiness guard `if regexp and stream:` used by each
pattern check of `SSHHost.run_grep`: a pattern participates only when it
is neither `None` (`none` here) nor the empty string, the stream is
non-empty, and `re.search` (the abstract `search` argument) finds a
match.  `regexp.getD ""` identifies `None` with `""`, which Python
truthiness also does. -/
def patFires (search : String → String → Bool)
    (regexp : Option String) (stream : String) : Bool :=
  (regexp.getD "" != "") && (stream != "") && search (regexp.getD "") stream

/-- The message of the pattern-matched failure raised by
`SSHHost.run_grep`: `'%s failed, found error pattern: "%s"' % (command,
regexp)`. -/
def grepErrMsg (command regexp : String) : String :=
  command ++ " failed, found error pattern: \"" ++ regexp ++ "\""

/-- The pattern-classification tail of `SSHHost.run_grep`, applied to the
result captured by the underlying `run` call: the two error patterns are
tried first (stderr pattern against stderr, then stdout pattern against
stdout) and raise `AutoservRunError` naming command and pattern; then the
two ok patterns (stderr, then stdout) return successfully; finally a
positive exit status raises the generic `AutoservRunError` unless
`run_grep`'s own `ignore_status` argument is set. -/
def grepCheck (search : String → String → Bool) (command : String)
    (ignore_status : Bool)
    (stdout_ok_regexp stdout_err_regexp
      stderr_ok_regexp stderr_err_regexp : Option String)
    (result : CmdResult) : Except AutoservError Unit :=
  if patFires search stderr_err_regexp result.stderr then
    .error (.runError (grepErrMsg command (stderr_err_regexp.getD "")) result)
  else if patFires search stdout_err_regexp result.stdout then
    .error (.runError (grepErrMsg command (stdout_err_regexp.getD "")) result)
  else if patFires search stderr_ok_regexp result.stderr then
    .ok ()
  else if patFires search stdout_ok_regexp result.stdout then
    .ok ()
  else if !ignore_status && decide (0 < result.exit_status) then
    .error (.runError "command execution error" result)
  else
    .ok ()

/-- `SSHHost.run_grep` as a function of the spawn outcome: it first runs
the command with `ignore_status=True` hard-coded (so 255-marker errors
still propagate, but the generic status check is deferred), then applies
the pattern classification. -/
def run_grep (search : String → String → Bool) (command : String)
    (ignore_status : Bool)
    (stdout_ok_regexp stdout_err_regexp
      stderr_ok_regexp stderr_err_regexp : Option String)
    (outcome : SpawnOutcome) : Except AutoservError Unit :=
  match run true outcome with
  | .error e => .error e
  | .ok result =>
    grepCheck search command ignore_status stdout_ok_regexp
      stdout_err_regexp stderr_ok_regexp stderr_err_regexp result

end SSHHost

/-- Concrete regular-expression search for witnesses: for a pattern with
no metacharacters, Python `re.search(pattern, stream)` is exactly the
substring test, and `re.search("", stream)` always matches. -/
def substrSearch (regexp stream : String) : Bool :=
  hasSub regexp.data stream.data

namespace SSHHost

/-- The environment serialization performed by `SSHHost.run`:
`" ".join("=".join(pair) for pair in self.env.items())`. -/
def serializeEnv : List (String × String) → String
  | [] => ""
  | [p] => p.1 ++ "=" ++ p.2
  | p :: q :: rest => p.1 ++ "=" ++ p.2 ++ " " ++ serializeEnv (q :: rest)

/-- The env-prefix step of `SSHHost._run`: `if not env.strip(): env = ""
else: env = "export %s;" % env`.  Python `str.strip()` is empty exactly
when every character is whitespace. -/
def exportEnv (env : String) : String :=
  if env.data.all Char.isWhitespace then "" else "export " ++ env ++ ";"

/-- The argument-append loop of `SSHHost._run`:
`for arg in args: command += ' "%s"' % utils.sh_escape(arg)`, with the
shell-escaping collaborator `utils.sh_escape` abstract (`esc`). -/
def appendArgs (esc : String → String) (command : String)
    (args : List String) : String :=
  args.foldl (fun c a => c ++ " \"" ++ esc a ++ "\"") command

/-- The transmitted command line built by `SSHHost._run`:
`full_cmd = '%s "%s %s"' % (ssh_cmd, env, utils.sh_escape(command))`
after the env prefix and the argument-append loop. -/
def fullCmd (esc : String → String) (ssh_cmd command env : String)
    (args : List String) : String :=
  ssh_cmd ++ " \"" ++ exportEnv env ++ " " ++
    esc (appendArgs esc command args) ++ "\""

/-- The trailing-arguments block as the specification describes it: each
element of `args`, shell-escaped individually, appended as a separate
double-quoted trailing argument. -/
def specArgsBlock (esc : String → String) : List String → String
  | [] => ""
  | a :: rest => " \"" ++ esc a ++ "\"" ++ specArgsBlock esc rest

/-- The transmitted command line as the specification describes it: the
composed ssh command, then one double-quoted remote command consisting of
the export prefix exactly when the serialized environment is non-empty,
followed by the user command (with the trailing-argument block) escaped
once as a whole. -/
def specFullCmd (esc : String → String) (ssh_cmd command env : String)
    (args : List String) : String :=
  ssh_cmd ++ " \"" ++ (if env = "" then "" else "export " ++ env ++ ";") ++
    " " ++ esc (command ++ specArgsBlock esc args) ++ "\""

end SSHHost

/-- One observable step of `SSHHost.setup_ssh`: a reachability probe
(`self.ssh_ping()`) or a key installation
(`ssh_key.setup_ssh_key(hostname, user, password, port)`). -/
inductive BootstrapStep where
  | probe
  | installKey
deriving DecidableEq, Repr

/-- Modelled from the spec: the outcome of the reachability probe
`ssh_ping` (defined in `abstract_ssh`, which is not under `src/`).  Per
the spec, the relevant failure of the initial probe is an authentication
failure, raised as `AutoservSshPingHostError` and caught by
`setup_ssh`. -/
inductive ProbeOutcome where
  | reachable
  | authFailed
deriving DecidableEq, Repr

/-- Modelled from the spec: the outcome of the key-provisioning
collaborator `ssh_key.setup_ssh_key` (not under `src/`), which installs a
public key using the supplied password and retries the probe; a
persistent authentication failure makes it raise. -/
inductive InstallOutcome where
  | installed
  | authFailed
deriving DecidableEq, Repr

/-- Modelled from the spec: the error surfaced when the one-shot key
bootstrap fails persistently — an authentication error. -/
inductive BootstrapError where
  | authentication
deriving DecidableEq, Repr

namespace SSHHost

/-- `SSHHost.setup_ssh`: when the Target carries a password, probe once;
if the probe raises the ping-host error, call `ssh_key.setup_ssh_key`
once, whose own failure propagates to the caller.  Without a password
(Python truthiness: the empty string) nothing happens.  The first
component records the collaborator invocations in order. -/
def setup_ssh (password : String) (probe : ProbeOutcome)
    (install : InstallOutcome) :
    List BootstrapStep × Except BootstrapError Unit :=
  if password = "" then ([], .ok ())
  else
    match probe with
    | .reachable => ([.probe], .ok ())
    | .authFailed =>
      match install with
      | .installed => ([.probe, .installKey], .ok ())
      | .authFailed => ([.probe, .installKey], .error .authentication)

end SSHHost

end Autotest

namespace Autotest

/-- A stderr string can satisfy both 255 markers at once: the
connection-timed-out pattern lets `.*` absorb the permission marker. -/
def bothMarkersStderr : String :=
  "ssh: connect to host Permission denied. port 22: Connection timed out\r"

/-- C1: exit status 255 with stderr matching the anchored
connection-timed-out pattern raises `AutoservSSHTimeout` carrying the
result, for both values of `ignore_status`. -/
theorem run_255_timeout_raises_ssh_timeout
    (ignore_status : Bool) (r : CmdResult)
    (h255 : r.exit_status = 255)
    (hmatch : connTimedOutMatch r.stderr = true) :
    SSHHost.run ignore_status (.completed r) =
      .error (.sshTimeout "ssh timed out" r) := by
  simp [SSHHost.run, SSHHost.runCheck, h255, hmatch]

/-- C1 witness: a concrete 255 result whose stderr matches the pattern. -/
theorem run_255_timeout_raises_ssh_timeout_witness :
    connTimedOutMatch
      "ssh: connect to host h port 22: Connection timed out\r" = true ∧
    SSHHost.run true
      (.completed ⟨255, "",
        "ssh: connect to host h port 22: Connection timed out\r"⟩) =
      .error (.sshTimeout "ssh timed out"
        ⟨255, "", "ssh: connect to host h port 22: Connection timed out\r"⟩) :=
  ⟨by decide,
   run_255_timeout_raises_ssh_timeout true
     ⟨255, "", "ssh: connect to host h port 22: Connection timed out\r"⟩
     rfl (by decide)⟩

/-- C2: on exit status 255 the connection-timed-out pattern is tried
before the permission-denied marker: when only the marker holds,
`AutoservSshPermissionDeniedError` is raised regardless of
`ignore_status`, and when both hold, `AutoservSSHTimeout` wins. -/
theorem run_255_permission_denied_order
    (ignore_status : Bool) (r : CmdResult)
    (h255 : r.exit_status = 255) :
    (connTimedOutMatch r.stderr = false →
      permissionDeniedIn r.stderr = true →
      SSHHost.run ignore_status (.completed r) =
        .error (.sshPermissionDenied "ssh permission denied" r)) ∧
    (connTimedOutMatch r.stderr = true →
      SSHHost.run ignore_status (.completed r) =
        .error (.sshTimeout "ssh timed out" r)) := by
  constructor
  · intro hto hpd
    simp [SSHHost.run, SSHHost.runCheck, h255, hto, hpd]
  · intro hto
    simp [SSHHost.run, SSHHost.runCheck, h255, hto]

/-- C2 witness: a permission-denied-only stderr raises the authentication
error even with `ignore_status` set, and a stderr carrying both markers
raises the transport-timeout error. -/
theorem run_255_permission_denied_order_witness :
    SSHHost.run true (.completed ⟨255, "", "Permission denied."⟩) =
      .error (.sshPermissionDenied "ssh permission denied"
        ⟨255, "", "Permission denied."⟩) ∧
    permissionDeniedIn bothMarkersStderr = true ∧
    SSHHost.run true (.completed ⟨255, "", bothMarkersStderr⟩) =
      .error (.sshTimeout "ssh timed out" ⟨255, "", bothMarkersStderr⟩) :=
  ⟨(run_255_permission_denied_order true ⟨255, "", "Permission denied."⟩
      rfl).1 (by decide) (by decide),
   by decide,
   (run_255_permission_denied_order true ⟨255, "", bothMarkersStderr⟩
      rfl).2 (by decide)⟩

/-- C3: exit status 0 always returns the result; exit statuses 1..254
raise the generic `AutoservRunError` exactly when `ignore_status` is
false, and return the result intact when it is true. -/
theorem run_status_check (r : CmdResult) :
    (r.exit_status = 0 →
      ∀ ignore_status, SSHHost.run ignore_status (.completed r) = .ok r) ∧
    (1 ≤ r.exit_status → r.exit_status ≤ 254 →
      SSHHost.run false (.completed r) =
        .error (.runError "command execution error" r) ∧
      SSHHost.run true (.completed r) = .ok r) := by
  constructor
  · intro h0 ignore_status
    simp [SSHHost.run, SSHHost.runCheck, h0]
  · intro h1 h254
    have hne : r.exit_status ≠ 255 := by omega
    have hpos : 0 < r.exit_status := by omega
    constructor
    · simp [SSHHost.run, SSHHost.runCheck, hne, hpos]
    · simp [SSHHost.run, SSHHost.runCheck, hne, hpos]

/-- C3 witness: exit status 0 returns, exit status 1 raises without
`ignore_status` and returns with it. -/
theorem run_status_check_witness :
    SSHHost.run false (.completed ⟨0, "hi\n", ""⟩) = .ok ⟨0, "hi\n", ""⟩ ∧
    SSHHost.run false (.completed ⟨1, "", ""⟩) =
      .error (.runError "command execution error" ⟨1, "", ""⟩) ∧
    SSHHost.run true (.completed ⟨1, "", ""⟩) = .ok ⟨1, "", ""⟩ :=
  ⟨(run_status_check ⟨0, "hi\n", ""⟩).1 rfl false,
   ((run_status_check ⟨1, "", ""⟩).2 (by decide) (by decide)).1,
   ((run_status_check ⟨1, "", ""⟩).2 (by decide) (by decide)).2⟩

/-- C9: a negative exit status (signal-terminated process) never raises
the generic error, even with `ignore_status` false: the raise condition
is `exit_status > 0`, not `exit_status != 0`. -/
theorem run_negative_status_returns (r : CmdResult)
    (hneg : r.exit_status < 0) :
    SSHHost.run false (.completed r) = .ok r := by
  have hne : r.exit_status ≠ 255 := by omega
  have hnp : ¬ 0 < r.exit_status := by omega
  simp [SSHHost.run, SSHHost.runCheck, hne, hnp]

/-- C9 witness: exit status -9 with `ignore_status` false returns the
result unchanged. -/
theorem run_negative_status_returns_witness :
    SSHHost.run false (.completed ⟨-9, "", ""⟩) = .ok ⟨-9, "", ""⟩ :=
  run_negative_status_returns ⟨-9, "", ""⟩ (by decide)

/-- C4 counterexample: a local spawn timeout (a `CmdError` whose message
happens to equal the generic one) and an ordinary exit-1 failure produce
literally identical errors from `run`, so the local-timeout failure is
not distinguishable from the generic remote-execution failure: both are
`AutoservRunError`. -/
theorem run_local_timeout_counterexample :
    SSHHost.run false (.cmdError "command execution error" ⟨1, "", ""⟩) =
      SSHHost.run false (.completed ⟨1, "", ""⟩) := by
  rfl

/-- C4 amended: on a local spawn timeout `run` raises `AutoservRunError`
— the same error kind as generic remote-execution failures — carrying
the `CmdError` message and partial result, for any `ignore_status`; it
is distinguishable from the transport-timeout and authentication
errors, but not, by error kind, from generic remote-execution
failures. -/
theorem run_local_timeout_raises_run_error
    (ignore_status : Bool) (msg : String) (r : CmdResult) :
    SSHHost.run ignore_status (.cmdError msg r) =
      .error (.runError msg r) ∧
    (∀ m2 r2, AutoservError.runError msg r ≠ .sshTimeout m2 r2) ∧
    (∀ m2 r2, AutoservError.runError msg r ≠ .sshPermissionDenied m2 r2) := by
  refine ⟨rfl, fun m2 r2 h => ?_, fun m2 r2 h => ?_⟩ <;> cases h

/-- C4 witness: a concrete local timeout surfaced as `AutoservRunError`
with the message and partial result preserved. -/
theorem run_local_timeout_raises_run_error_witness :
    SSHHost.run false (.cmdError "ssh command timed out" ⟨-1, "partial", ""⟩) =
      .error (.runError "ssh command timed out" ⟨-1, "partial", ""⟩) :=
  (run_local_timeout_raises_run_error false "ssh command timed out"
    ⟨-1, "partial", ""⟩).1

/-- C5 counterexample, two parts.  First: the empty string is a supplied
pattern that matches the non-empty stderr `"x"` (Python
`re.search("", "x")` always matches, and so does the substring search
embedding it), yet `run_grep` returns normally instead of raising the
pattern-matched failure: the Python truthiness guard
`if regexp and stream:` skips an empty supplied pattern.  Second: when
the underlying run itself raises (exit 255 with the timeout marker), a
supplied non-empty matching error pattern is never consulted: the
transport-timeout error surfaces instead of the pattern-matched
failure. -/
theorem run_grep_error_pattern_counterexample :
    substrSearch "" "x" = true ∧
    SSHHost.run_grep substrSearch "true" true none none none (some "")
      (.completed ⟨0, "", "x"⟩) = .ok () ∧
    substrSearch "Connection"
      "ssh: connect to host h port 22: Connection timed out\r" = true ∧
    SSHHost.run_grep substrSearch "true" true none none none
      (some "Connection")
      (.completed ⟨255, "",
        "ssh: connect to host h port 22: Connection timed out\r"⟩) =
      .error (.sshTimeout "ssh timed out"
        ⟨255, "",
          "ssh: connect to host h port 22: Connection timed out\r"⟩) := by
  refine ⟨by decide, by rfl, by decide, by rfl⟩

/-- C5 amended: for a supplied **non-empty** error pattern whose stream
is non-empty and matches, `run_grep` raises the pattern-matched
`AutoservRunError` naming the command and the pattern, whatever the
success patterns and the exit status (underlying run returned); the
stderr error pattern is tried first, and the stdout error pattern is
tried second, only when the stderr one did not fire. -/
theorem run_grep_error_patterns_first
    (search : String → String → Bool) (command : String)
    (ignore_status : Bool)
    (stdout_ok_regexp stdout_err_regexp
      stderr_ok_regexp stderr_err_regexp : Option String)
    (r : CmdResult)
    (hrun : SSHHost.runCheck true r = .ok r) :
    (∀ p, stderr_err_regexp = some p → p ≠ "" → r.stderr ≠ "" →
      search p r.stderr = true →
      SSHHost.run_grep search command ignore_status stdout_ok_regexp
        stdout_err_regexp stderr_ok_regexp stderr_err_regexp
        (.completed r) =
        .error (.runError (SSHHost.grepErrMsg command p) r)) ∧
    (SSHHost.patFires search stderr_err_regexp r.stderr = false →
      ∀ p, stdout_err_regexp = some p → p ≠ "" → r.stdout ≠ "" →
      search p r.stdout = true →
      SSHHost.run_grep search command ignore_status stdout_ok_regexp
        stdout_err_regexp stderr_ok_regexp stderr_err_regexp
        (.completed r) =
        .error (.runError (SSHHost.grepErrMsg command p) r)) := by
  constructor
  · intro p hsome hp hs hm
    subst hsome
    have hfire : SSHHost.patFires search (some p) r.stderr = true := by
      simp [SSHHost.patFires, hp, hs, hm]
    simp [SSHHost.run_grep, SSHHost.run, hrun, SSHHost.grepCheck, hfire]
  · intro hnofire p hsome hp hs hm
    subst hsome
    have hfire : SSHHost.patFires search (some p) r.stdout = true := by
      simp [SSHHost.patFires, hp, hs, hm]
    simp [SSHHost.run_grep, SSHHost.run, hrun, SSHHost.grepCheck, hnofire,
      hfire]

/-- C5 witness: with exit status 0 and success patterns supplied, a
matching non-empty stderr error pattern still raises the failure naming
command and pattern. -/
theorem run_grep_error_patterns_first_witness :
    SSHHost.run_grep substrSearch "mycmd" true (some "ok") none
      (some "ok") (some "boom") (.completed ⟨0, "", "boom happened"⟩) =
      .error (.runError (SSHHost.grepErrMsg "mycmd" "boom")
        ⟨0, "", "boom happened"⟩) :=
  (run_grep_error_patterns_first substrSearch "mycmd" true (some "ok")
    none (some "ok") (some "boom") ⟨0, "", "boom happened"⟩ rfl).1
    "boom" rfl (by decide) (by decide) (by decide)

/-- A pattern check never fires on an empty stream (Python truthiness of
the stream in `if regexp and stream:`). -/
theorem patFires_empty_stream (search : String → String → Bool)
    (regexp : Option String) : SSHHost.patFires search regexp "" = false := by
  simp [SSHHost.patFires]

/-- An absent pattern never fires. -/
theorem patFires_none (search : String → String → Bool) (stream : String) :
    SSHHost.patFires search none stream = false := by
  simp [SSHHost.patFires]

/-- C6 counterexample: with no patterns, `ignore_status=False` and a
negative (hence non-zero) underlying exit status, `run_grep` returns
normally instead of raising the generic error: the final check is
`exit_status > 0`, not `exit_status != 0`. -/
theorem run_grep_status_counterexample :
    SSHHost.run_grep substrSearch "c" false none none none none
      (.completed ⟨-9, "", ""⟩) = .ok () := by
  rfl

/-- C6 amended: when neither error pattern fires (and the underlying run
returned its result), `run_grep` raises the generic `AutoservRunError`
exactly when no supplied success pattern fires on its stream, its own
`ignore_status` argument is false, and the underlying exit status is
strictly positive; in every other case it returns normally. -/
theorem run_grep_status_fallback
    (search : String → String → Bool) (command : String)
    (ignore_status : Bool)
    (stdout_ok_regexp stdout_err_regexp
      stderr_ok_regexp stderr_err_regexp : Option String)
    (r : CmdResult)
    (he1 : SSHHost.patFires search stderr_err_regexp r.stderr = false)
    (he2 : SSHHost.patFires search stdout_err_regexp r.stdout = false)
    (hrun : SSHHost.runCheck true r = .ok r) :
    SSHHost.run_grep search command ignore_status stdout_ok_regexp
      stdout_err_regexp stderr_ok_regexp stderr_err_regexp
      (.completed r) =
      if SSHHost.patFires search stderr_ok_regexp r.stderr = false ∧
          SSHHost.patFires search stdout_ok_regexp r.stdout = false ∧
          ignore_status = false ∧ 0 < r.exit_status
      then .error (.runError "command execution error" r)
      else .ok () := by
  cases hA : SSHHost.patFires search stderr_ok_regexp r.stderr <;>
    cases hB : SSHHost.patFires search stdout_ok_regexp r.stdout <;>
    cases ignore_status <;>
    by_cases hpos : 0 < r.exit_status <;>
    simp [SSHHost.run_grep, SSHHost.run, hrun, SSHHost.grepCheck, he1,
      he2, hA, hB, hpos]

/-- C6 witness: no patterns, exit status 1 and `ignore_status=False`
raise the generic error; the same with `ignore_status=True` returns. -/
theorem run_grep_status_fallback_witness :
    SSHHost.run_grep substrSearch "c" false none none none none
      (.completed ⟨1, "", ""⟩) =
      .error (.runError "command execution error" ⟨1, "", ""⟩) ∧
    SSHHost.run_grep substrSearch "c" true none none none none
      (.completed ⟨1, "", ""⟩) = .ok () := by
  constructor
  · rw [run_grep_status_fallback substrSearch "c" false none none none
      none ⟨1, "", ""⟩ rfl rfl rfl]
    rfl
  · rw [run_grep_status_fallback substrSearch "c" true none none none
      none ⟨1, "", ""⟩ rfl rfl rfl]
    rfl

/-- C10: every pattern check is skipped when its stream is empty — a
supplied pattern behaves like an absent one on an empty stream, success
patterns included — and with both streams empty the outcome is decided
solely by the final exit-status check. -/
theorem run_grep_empty_stream_ignored
    (search : String → String → Bool) (command : String)
    (ignore_status : Bool)
    (stdout_ok_regexp stdout_err_regexp
      stderr_ok_regexp stderr_err_regexp : Option String)
    (r : CmdResult) :
    (r.stdout = "" →
      SSHHost.grepCheck search command ignore_status stdout_ok_regexp
        stdout_err_regexp stderr_ok_regexp stderr_err_regexp r =
      SSHHost.grepCheck search command ignore_status none none
        stderr_ok_regexp stderr_err_regexp r) ∧
    (r.stderr = "" →
      SSHHost.grepCheck search command ignore_status stdout_ok_regexp
        stdout_err_regexp stderr_ok_regexp stderr_err_regexp r =
      SSHHost.grepCheck search command ignore_status stdout_ok_regexp
        stdout_err_regexp none none r) ∧
    (r.stdout = "" → r.stderr = "" →
      SSHHost.grepCheck search command ignore_status stdout_ok_regexp
        stdout_err_regexp stderr_ok_regexp stderr_err_regexp r =
      if ignore_status = false ∧ 0 < r.exit_status
      then .error (.runError "command execution error" r)
      else .ok ()) := by
  refine ⟨fun h1 => ?_, fun h2 => ?_, fun h1 h2 => ?_⟩
  · simp [SSHHost.grepCheck, h1, patFires_empty_stream, patFires_none]
  · simp [SSHHost.grepCheck, h2, patFires_empty_stream, patFires_none]
  · cases ignore_status <;> by_cases hpos : 0 < r.exit_status <;>
      simp [SSHHost.grepCheck, h1, h2, patFires_empty_stream, hpos]

/-- C10 witness: success patterns that would match the empty string (the
empty pattern matches everything under substring search) do not rescue a
failing exit status when both streams are empty. -/
theorem run_grep_empty_stream_ignored_witness :
    substrSearch "" "" = true ∧
    SSHHost.grepCheck substrSearch "c" false (some "") none (some "")
      none ⟨5, "", ""⟩ =
      .error (.runError "command execution error" ⟨5, "", ""⟩) := by
  constructor
  · decide
  · rw [(run_grep_empty_stream_ignored substrSearch "c" false (some "")
      none (some "") none ⟨5, "", ""⟩).2.2 rfl rfl]
    rfl

/-- C7: with a password, a failed probe triggers exactly one key
installation; a second failure is surfaced as an authentication error
and the installation is never retried, while a successful installation
returns normally. -/
theorem setup_ssh_bootstrap (password : String) (probe : ProbeOutcome)
    (install : InstallOutcome) :
    (SSHHost.setup_ssh password probe install).1.count .installKey ≤ 1 ∧
    (password ≠ "" → probe = .authFailed →
      (SSHHost.setup_ssh password probe install).1 =
        [.probe, .installKey] ∧
      (install = .installed →
        (SSHHost.setup_ssh password probe install).2 = .ok ()) ∧
      (install = .authFailed →
        (SSHHost.setup_ssh password probe install).2 =
          .error .authentication)) := by
  constructor
  · by_cases hpw : password = "" <;> cases probe <;> cases install <;>
      simp [SSHHost.setup_ssh, hpw]
  · intro hpw hprobe
    subst hprobe
    cases install <;> simp [SSHHost.setup_ssh, hpw]

/-- C7 witness: with password `"secret"`, a failed probe followed by a
failed installation performs the installation once and surfaces the
authentication error. -/
theorem setup_ssh_bootstrap_witness :
    (SSHHost.setup_ssh "secret" .authFailed .authFailed).1 =
      [.probe, .installKey] ∧
    (SSHHost.setup_ssh "secret" .authFailed .authFailed).2 =
      .error .authentication :=
  ⟨((setup_ssh_bootstrap "secret" .authFailed .authFailed).2
      (by decide) rfl).1,
   ((setup_ssh_bootstrap "secret" .authFailed .authFailed).2
      (by decide) rfl).2.2 rfl⟩

/-- The argument-append loop is the concatenation of the command with
the spec-shaped trailing-arguments block. -/
theorem appendArgs_eq (esc : String → String) (args : List String)
    (command : String) :
    SSHHost.appendArgs esc command args =
      command ++ SSHHost.specArgsBlock esc args := by
  induction args generalizing command with
  | nil => simp [SSHHost.appendArgs, SSHHost.specArgsBlock]
  | cons a rest ih =>
    show SSHHost.appendArgs esc (command ++ " \"" ++ esc a ++ "\"") rest = _
    rw [ih]
    simp [SSHHost.specArgsBlock, String.append_assoc]

/-- A non-empty serialized environment contains an equals sign. -/
theorem serializeEnv_cons_mem (p : String × String)
    (ps : List (String × String)) :
    '=' ∈ (SSHHost.serializeEnv (p :: ps)).data := by
  have hm : '=' ∈ ("=" : String).data := by decide
  cases ps with
  | nil =>
    simp only [SSHHost.serializeEnv, String.data_append, List.mem_append]
    exact .inl (.inr hm)
  | cons q rest =>
    simp only [SSHHost.serializeEnv, String.data_append, List.mem_append]
    exact .inl (.inl (.inl (.inr hm)))

/-- A non-empty serialized environment is not all-whitespace, so the
`env.strip()` truthiness test accepts it. -/
theorem serializeEnv_cons_not_blank (p : String × String)
    (ps : List (String × String)) :
    (SSHHost.serializeEnv (p :: ps)).data.all Char.isWhitespace = false := by
  cases hb : (SSHHost.serializeEnv (p :: ps)).data.all Char.isWhitespace
  · rfl
  · have := List.all_eq_true.mp hb '=' (serializeEnv_cons_mem p ps)
    exact absurd this (by decide)

/-- A non-empty serialized environment is a non-empty string. -/
theorem serializeEnv_cons_ne (p : String × String)
    (ps : List (String × String)) :
    SSHHost.serializeEnv (p :: ps) ≠ "" := by
  intro h
  have hmem := serializeEnv_cons_mem p ps
  rw [h] at hmem
  exact absurd hmem (by decide)

/-- C8: for every escape function, ssh command, user command,
environment and argument list, the transmitted command line built by
`_run` equals the spec-shaped composition: ssh command, one double-quoted
remote command holding the export prefix exactly when the serialized
environment is non-empty, and the user command with each argument
individually escaped and appended as a separate double-quoted trailing
argument, the whole escaped once. -/
theorem full_cmd_matches_spec (esc : String → String)
    (ssh_cmd command : String) (envPairs : List (String × String))
    (args : List String) :
    SSHHost.fullCmd esc ssh_cmd command (SSHHost.serializeEnv envPairs)
      args =
    SSHHost.specFullCmd esc ssh_cmd command
      (SSHHost.serializeEnv envPairs) args := by
  cases envPairs with
  | nil =>
    have h0 : ("".data.all Char.isWhitespace) = true := by decide
    simp [SSHHost.fullCmd, SSHHost.specFullCmd, SSHHost.serializeEnv,
      SSHHost.exportEnv, h0, appendArgs_eq]
  | cons p ps =>
    have h1 := serializeEnv_cons_not_blank p ps
    have h2 := serializeEnv_cons_ne p ps
    simp [SSHHost.fullCmd, SSHHost.specFullCmd, SSHHost.exportEnv, h1, h2,
      appendArgs_eq]

end Autotest
